import Mathlib

/-!
Verification development for the coaching-dashboard application (`app.py`).

The file shallowly embeds the record-keeping core of the application:
the grade classifier `grade_by_percent`, the TAB-4 metric submission,
the attendance upsert (`INSERT ... ON CONFLICT(session_id, player_id)
DO UPDATE`), the TAB-5 report assembly (subject filtering and the
`tail(50)` cap), the optional AI-feedback helper `ai_feedback` with its
response-text extraction, and the player deletion.  Machine integers are
modelled as `Nat`/`Int`, SQL/pandas floats as `ℚ`, SQL `NULL` and Python
`None` as `Option`, and tables as lists of rows.
-/

/-! ## Grade classifier (`grade_by_percent`, app.py lines 157-172) -/

/-- `grade_by_percent(p, scheme)`: under scheme `"rebound_total"` the tiers
are 85/75/65/55, under any other scheme (the `"alt"` branch) 82/72/62/52;
first matching tier wins, otherwise `"F"`. -/
def grade_by_percent (p : ℚ) (scheme : String) : String :=
  if scheme = "rebound_total" then
    if p ≥ 85 then "A"
    else if p ≥ 75 then "B"
    else if p ≥ 65 then "C"
    else if p ≥ 55 then "D"
    else "F"
  else
    if p ≥ 82 then "A"
    else if p ≥ 72 then "B"
    else if p ≥ 62 then "C"
    else if p ≥ 52 then "D"
    else "F"

/-- Rank of a letter grade in the order F < D < C < B < A. -/
def gradeRank (g : String) : ℕ :=
  if g = "A" then 4
  else if g = "B" then 3
  else if g = "C" then 2
  else if g = "D" then 1
  else 0

/-! ## Metric submission (TAB 4, app.py lines 399-429) -/

/-- Python's `round` on an exact value: round half to even. -/
def roundHalfEven (q : ℚ) : ℤ :=
  if q - ⌊q⌋ < 1/2 then ⌊q⌋
  else if q - ⌊q⌋ > 1/2 then ⌊q⌋ + 1
  else if ⌊q⌋ % 2 = 0 then ⌊q⌋ else ⌊q⌋ + 1

/-- `round(x, 1)`: round to one decimal place. -/
def round1 (q : ℚ) : ℚ := (roundHalfEven (10 * q) : ℚ) / 10

/-- Does `pat` start the character list? -/
def charsAgree : List Char → List Char → Bool
  | [], _ => true
  | _ :: _, [] => false
  | a :: as, b :: bs => a == b && charsAgree as bs

/-- Python's `str.startswith`. -/
def strStartsWith (s pre : String) : Bool :=
  charsAgree pre.data s.data

/-- Drop leading whitespace characters. -/
def dropLeadingWs : List Char → List Char
  | [] => []
  | c :: cs => if c.isWhitespace then dropLeadingWs cs else c :: cs

/-- Python's `str.strip`: remove leading and trailing whitespace. -/
def pyStrip (s : String) : String :=
  ⟨(dropLeadingWs (dropLeadingWs s.data).reverse).reverse⟩

/-- The scheme selectbox value is mapped with
`"rebound_total" if scheme.startswith("rebound_total") else "alt"`. -/
def metricScheme (schemeChoice : String) : String :=
  if strStartsWith schemeChoice "rebound_total" then "rebound_total" else "alt"

/-- The columns of the metrics INSERT that are derived from the submitted
counts: `made`, `attempt`, `percent`, `grade` (app.py lines 418-428). -/
structure SavedMetric where
  made : Option ℕ
  attempt : Option ℕ
  percent : Option ℚ
  grade : Option String
deriving DecidableEq

/-- TAB 4 metric submission: `percent`/`grade` are computed only when
`attempt > 0` (lines 410-414), and the INSERT stores
`int(made) if attempt > 0 else None`, `int(attempt) if attempt > 0 else None`,
the computed `percent` and `grade` (lines 418-428). -/
def saveMetric (made attempt : ℕ) (schemeChoice : String) : SavedMetric :=
  if attempt > 0 then
    let percent := round1 ((made : ℚ) / (attempt : ℚ) * 100)
    let grade := grade_by_percent percent (metricScheme schemeChoice)
    { made := some made, attempt := some attempt,
      percent := some percent, grade := some grade }
  else
    { made := none, attempt := none, percent := none, grade := none }

/-! ## Attendance upsert (app.py lines 67-81 and 329-337) -/

/-- A row of the `attendance` table (DDL at app.py lines 67-81).
`created_at` keeps the `now_iso()` string. -/
structure AttendanceRow where
  id : ℕ
  session_id : ℕ
  player_id : ℕ
  present : ℕ
  intensity : ℕ
  mood : ℕ
  memo : String
  created_at : String
deriving DecidableEq

/-- The `attendance` table: its rows plus the AUTOINCREMENT counter. -/
structure AttendanceTable where
  rows : List AttendanceRow
  nextId : ℕ
deriving DecidableEq

/-- The natural key of the attendance upsert: `UNIQUE(session_id, player_id)`. -/
def attKey (sessionId playerId : ℕ) (r : AttendanceRow) : Bool :=
  r.session_id == sessionId && r.player_id == playerId

/-- The upsert at app.py lines 331-336: `INSERT INTO attendance(...)
VALUES(...) ON CONFLICT(session_id, player_id) DO UPDATE SET
present=excluded.present, intensity=excluded.intensity,
mood=excluded.mood, memo=excluded.memo`.  On conflict the existing row's
`id` and `created_at` are not in the SET list, so they are unchanged;
otherwise a fresh row with a new id and the submitted `created_at` is
appended. -/
def upsertAttendance (t : AttendanceTable) (sessionId playerId present intensity mood : ℕ)
    (memo createdAt : String) : AttendanceTable :=
  if t.rows.any (attKey sessionId playerId) then
    { t with rows := t.rows.map (fun r =>
        if attKey sessionId playerId r then
          { r with present := present, intensity := intensity, mood := mood, memo := memo }
        else r) }
  else
    { rows := t.rows ++ [{ id := t.nextId, session_id := sessionId, player_id := playerId,
                           present := present, intensity := intensity, mood := mood,
                           memo := memo, created_at := createdAt }],
      nextId := t.nextId + 1 }

/-! ## Report assembly (TAB 5, app.py lines 477-515)

Dates are modelled as natural numbers (day ordinals); only the columns the
filtering and payload logic inspects are carried. -/

/-- A row of the attendance join used in the report (app.py lines 478-484):
the query has no ORDER BY. -/
structure AttReportRow where
  session_date : ℕ
  name : String
  present : ℕ
  intensity : ℕ
  mood : ℕ
  memo : String
deriving DecidableEq

/-- A row of the `video_notes` report query (lines 486-491), ordered
`note_date DESC`; `players` may be NULL. -/
structure NoteRow where
  note_date : ℕ
  players : Option String
  note : String
deriving DecidableEq

/-- A row of the `metrics` report query (lines 493-498), ordered
`metric_date DESC`. -/
structure MetricReportRow where
  metric_date : ℕ
  player : String
  percent : Option ℚ
deriving DecidableEq

/-- Does the character list contain `pat` as a contiguous sublist? -/
def charsHasSub (pat : List Char) : List Char → Bool
  | [] => charsAgree pat []
  | c :: cs => charsAgree pat (c :: cs) || charsHasSub pat cs

/-- Literal substring containment of `pat` in `hay` (Python's
`pat in hay`, or `Series.str.contains` with `regex=False`): the
reference notion for "contains the filter as a substring". -/
def strContains (hay pat : String) : Bool :=
  charsHasSub pat.data hay.data

/-- One step of regex matching for the embedded pattern fragment: a
pattern character matches a text character when it is the metacharacter
`.` (which matches any single character) or the same literal. -/
def reAgree : List Char → List Char → Bool
  | [], _ => true
  | _ :: _, [] => false
  | a :: as, b :: bs => (a == '.' || a == b) && reAgree as bs

/-- Does the pattern match at some position of the text? -/
def reHasMatch (pat : List Char) : List Char → Bool
  | [] => reAgree pat []
  | c :: cs => reAgree pat (c :: cs) || reHasMatch pat cs

/-- pandas `Series.str.contains` with its default `regex=True`, i.e.
Python `re.search(pat, hay)`, modelled from its documented semantics
for the pattern fragment of literal characters and the metacharacter
`.` (match any single character).  Patterns using other metacharacters,
and the `re.error` raised by syntactically invalid patterns, lie
outside the embedded fragment. -/
def strContainsRegex (hay pat : String) : Bool :=
  reHasMatch pat.data hay.data

/-- The subject filtering of app.py lines 500-505: when the stripped
player filter is non-empty, attendance is filtered by exact `name`
equality, notes by `players.fillna("").str.contains(filter)`, metrics by
exact `player` equality; each guarded by the frame's emptiness check.
Otherwise all three streams pass through. -/
def filterStreams (rPlayer : String) (att : List AttReportRow) (notes : List NoteRow)
    (metrics : List MetricReportRow) :
    List AttReportRow × List NoteRow × List MetricReportRow :=
  if pyStrip rPlayer ≠ "" then
    (if att = [] then att else att.filter (fun r => r.name == pyStrip rPlayer),
     if notes = [] then notes
     else notes.filter (fun r => strContainsRegex (r.players.getD "") (pyStrip rPlayer)),
     if metrics = [] then metrics else metrics.filter (fun r => r.player == pyStrip rPlayer))
  else
    (att, notes, metrics)

/-- pandas `DataFrame.tail(n)`: the last `n` rows. -/
def tailCap (n : ℕ) (l : List α) : List α := l.drop (l.length - n)

/-- The three record streams placed in the report payload. -/
structure ReportPayload where
  attendance : List AttReportRow
  video_notes : List NoteRow
  metrics : List MetricReportRow
deriving DecidableEq

/-- Payload assembly at app.py lines 507-515: each filtered stream is
capped with `.tail(50)`, with an empty frame mapped to `[]`. -/
def buildPayload (rPlayer : String) (att : List AttReportRow) (notes : List NoteRow)
    (metrics : List MetricReportRow) : ReportPayload :=
  let fs := filterStreams rPlayer att notes metrics
  { attendance := if fs.1 = [] then [] else tailCap 50 fs.1
    video_notes := if fs.2.1 = [] then [] else tailCap 50 fs.2.1
    metrics := if fs.2.2 = [] then [] else tailCap 50 fs.2.2 }

/-! ## AI feedback helper (`ai_feedback`, app.py lines 177-213) -/

/-- One typed content chunk of the object-graph response shape. -/
structure ContentChunk where
  chunkType : String
  text : String
deriving DecidableEq

/-- One output item holding a list of content chunks. -/
structure OutputItem where
  content : List ContentChunk
deriving DecidableEq

/-- The response object returned by the external service.  `output_text`
models the attribute read by `getattr(resp, "output_text", "")` (`none`
when the attribute is missing or `None`); `output` models the
object-graph shape (`resp.output[i].content[j].text`) that real
responses may also carry. -/
structure AIResponse where
  output_text : Option String
  output : List OutputItem
deriving DecidableEq

/-- The response-text extraction at app.py lines 210-211:
`text = getattr(resp, "output_text", "") or ""` followed by
`return text.strip() if text.strip() else None`. -/
def extractText (resp : AIResponse) : Option String :=
  let text := resp.output_text.getD ""
  if pyStrip text = "" then none else some (pyStrip text)

/-- Outcome of the external call inside the `try` block: a response, or
any exception raised by the transport or the client construction. -/
inductive TransportResult where
  | ok (resp : AIResponse)
  | exn

/-- `ai_feedback` (app.py lines 177-213): with a falsy key it returns
`None` before the `try` block; otherwise the external call is made once
and any exception is caught by `except Exception: return None`.  The
boolean records whether the transport was invoked. -/
def ai_feedback (openaiKey : String) (transport : Unit → TransportResult) :
    Option String × Bool :=
  if openaiKey = "" then (none, false)
  else
    match transport () with
    | TransportResult.exn => (none, true)
    | TransportResult.ok resp => (extractText resp, true)

/-! ## Player deletion (TAB 1, app.py lines 246-250) -/

/-- A row of the `players` table. -/
structure PlayerRow where
  id : ℕ
  name : String
  notes : String
  created_at : String
deriving DecidableEq

/-- A row of the `sessions` table (identity and date suffice here). -/
structure SessionRow where
  id : ℕ
  session_date : ℕ
deriving DecidableEq

/-- A row of the `parent_msgs` table. -/
structure ParentMsgRow where
  msg_date : ℕ
  player : String
  message : String
deriving DecidableEq

/-- The six tables of the SQLite database (app.py lines 39-125). -/
structure Database where
  players : List PlayerRow
  sessions : List SessionRow
  attendance : List AttendanceRow
  video_notes : List NoteRow
  metrics : List MetricReportRow
  parent_msgs : List ParentMsgRow
deriving DecidableEq

/-- TAB 1 deletion (app.py line 249): `DELETE FROM players WHERE id=?`.
No other table is touched and no cascade exists in the schema. -/
def deletePlayer (db : Database) (pid : ℕ) : Database :=
  { db with players := db.players.filter (fun r => r.id != pid) }

/-! ## Concrete demonstration inputs -/

/-- An attendance row referencing player 1 and session 5. -/
def demoAttRow : AttendanceRow :=
  { id := 1, session_id := 5, player_id := 1, present := 1,
    intensity := 6, mood := 6, memo := "", created_at := "t1" }

/-- A database holding player 1 and one attendance row referencing it. -/
def demoDb : Database :=
  { players := [{ id := 1, name := "A", notes := "", created_at := "t0" }],
    sessions := [], attendance := [demoAttRow],
    video_notes := [], metrics := [], parent_msgs := [] }

/-- Two attendance report rows for players "A" and "B". -/
def demoAtt : List AttReportRow :=
  [{ session_date := 1, name := "A", present := 1, intensity := 7, mood := 8, memo := "" },
   { session_date := 1, name := "B", present := 1, intensity := 5, mood := 5, memo := "" }]

/-- Two video notes, one mentioning "A" and one not. -/
def demoNotes : List NoteRow :=
  [{ note_date := 2, players := some "A, B", note := "n1" },
   { note_date := 2, players := some "C", note := "n2" }]

/-- Two metric rows for players "A" and "C". -/
def demoMetrics : List MetricReportRow :=
  [{ metric_date := 3, player := "A", percent := some 85 },
   { metric_date := 3, player := "C", percent := none }]

/-- 51 video notes with dates 51 down to 1, listed in descending date
order exactly as the `ORDER BY note_date DESC` query returns them. -/
def demoNotes51 : List NoteRow :=
  (List.range 51).map (fun i => { note_date := 51 - i, players := none, note := "" })

/-- A response that carries its text only in the object-graph shape
(`resp.output[0].content[0].text`), with no `output_text` attribute. -/
def demoGraphResponse : AIResponse :=
  { output_text := none,
    output := [{ content := [{ chunkType := "output_text", text := "good work" }] }] }

/-- A response with a direct text attribute and no content graph. -/
def demoTextResponse : AIResponse :=
  { output_text := some " keep boxing out ", output := [] }

/-- The same direct text attribute, but with a content graph attached. -/
def demoBothResponse : AIResponse :=
  { output_text := some " keep boxing out ",
    output := [{ content := [{ chunkType := "output_text", text := "other" }] }] }

/-! ## Shared helper lemmas -/

theorem mem_tailCap_ite {α : Type} [DecidableEq α] {l : List α} {n : ℕ} {a : α}
    (h : a ∈ (if l = [] then ([] : List α) else tailCap n l)) : a ∈ l := by
  by_cases hl : l = []
  · rw [if_pos hl] at h
    exact absurd h (List.not_mem_nil a)
  · rw [if_neg hl] at h
    exact List.drop_subset _ _ h

theorem mem_capped_filter {α : Type} [DecidableEq α] {l : List α} {p : α → Bool} {a : α}
    (h : a ∈ (if (if l = [] then l else l.filter p) = [] then ([] : List α)
              else tailCap 50 (if l = [] then l else l.filter p))) : p a = true := by
  have h1 : a ∈ (if l = [] then l else l.filter p) := by
    by_cases hl : l = []
    · rw [hl] at h ⊢
      exact mem_tailCap_ite h
    · rw [if_neg hl] at h ⊢
      exact mem_tailCap_ite h
  by_cases hl : l = []
  · rw [if_pos hl, hl] at h1
    exact absurd h1 (List.not_mem_nil a)
  · rw [if_neg hl] at h1
    exact (List.mem_filter.mp h1).2

theorem ite_nil_tailCap {α : Type} [DecidableEq α] (n : ℕ) (l : List α) :
    (if l = [] then ([] : List α) else tailCap n l) = tailCap n l := by
  by_cases hl : l = [] <;> simp [hl, tailCap]

theorem tailCap_length_le {α : Type} (n : ℕ) (l : List α) : (tailCap n l).length ≤ n := by
  simp only [tailCap, List.length_drop]
  omega

theorem take_drop_rel {α : Type} {R : α → α → Prop} {l : List α} (h : l.Pairwise R) (n : ℕ) :
    ∀ x ∈ l.take n, ∀ y ∈ l.drop n, R x y := by
  have hsplit : (l.take n ++ l.drop n).Pairwise R := by
    rw [List.take_append_drop]
    exact h
  exact (List.pairwise_append.mp hsplit).2.2

theorem roundHalfEven_intCast (z : ℤ) : roundHalfEven (z : ℚ) = z := by
  unfold roundHalfEven
  rw [Int.floor_intCast, sub_self]
  norm_num

theorem round1_85 : round1 (((34 : ℕ) : ℚ) / ((40 : ℕ) : ℚ) * 100) = 85 := by
  have h : ((34 : ℕ) : ℚ) / ((40 : ℕ) : ℚ) * 100 = ((85 : ℤ) : ℚ) := by norm_num
  rw [h]
  unfold round1
  have h10 : (10 : ℚ) * ((85 : ℤ) : ℚ) = ((850 : ℤ) : ℚ) := by push_cast; ring
  rw [h10, roundHalfEven_intCast]
  norm_num

theorem filter_attKey_upd_eq_nil (sessionId playerId present intensity mood : ℕ)
    (memo : String) (l : List AttendanceRow)
    (hl : ∀ r ∈ l, attKey sessionId playerId r = false) :
    (l.map (fun r =>
        if attKey sessionId playerId r then
          { r with present := present, intensity := intensity, mood := mood, memo := memo }
        else r)).filter (attKey sessionId playerId) = [] := by
  induction l with
  | nil => rfl
  | cons a as ih =>
    have ha := hl a (List.mem_cons_self a as)
    have has : ∀ r ∈ as, attKey sessionId playerId r = false :=
      fun r hr => hl r (List.mem_cons_of_mem a hr)
    simp only [List.map_cons, ha, Bool.false_eq_true, if_false]
    rw [List.filter_cons_of_neg (by simp [ha])]
    exact ih has

theorem reAgree_eq_charsAgree (pat : List Char) (h : ∀ c ∈ pat, c ≠ '.') :
    ∀ l : List Char, reAgree pat l = charsAgree pat l := by
  induction pat with
  | nil => intro l; cases l <;> rfl
  | cons a as ih =>
    intro l
    cases l with
    | nil => rfl
    | cons b bs =>
      have ha : (a == '.') = false := by
        simp [h a (List.mem_cons_self a as)]
      have has : ∀ c ∈ as, c ≠ '.' := fun c hc => h c (List.mem_cons_of_mem a hc)
      simp only [reAgree, charsAgree, ha, Bool.false_or, ih has bs]

theorem reHasMatch_eq_charsHasSub (pat : List Char) (h : ∀ c ∈ pat, c ≠ '.') :
    ∀ hay : List Char, reHasMatch pat hay = charsHasSub pat hay := by
  intro hay
  induction hay with
  | nil => simp only [reHasMatch, charsHasSub, reAgree_eq_charsAgree pat h]
  | cons c cs ih =>
    simp only [reHasMatch, charsHasSub, reAgree_eq_charsAgree pat h, ih]

theorem pairwise_notes_stream {R : NoteRow → NoteRow → Prop} {notes : List NoteRow}
    (h : notes.Pairwise R) (rPlayer : String) (att : List AttReportRow)
    (metrics : List MetricReportRow) :
    ((filterStreams rPlayer att notes metrics).2.1).Pairwise R := by
  simp only [filterStreams]
  by_cases hc : pyStrip rPlayer ≠ ""
  · rw [if_pos hc]
    by_cases hn : notes = []
    · simp [hn]
    · simpa [hn] using h.filter _
  · rw [if_neg hc]
    exact h

theorem pairwise_metrics_stream {R : MetricReportRow → MetricReportRow → Prop}
    {metrics : List MetricReportRow} (h : metrics.Pairwise R) (rPlayer : String)
    (att : List AttReportRow) (notes : List NoteRow) :
    ((filterStreams rPlayer att notes metrics).2.2).Pairwise R := by
  simp only [filterStreams]
  by_cases hc : pyStrip rPlayer ≠ ""
  · rw [if_pos hc]
    by_cases hm : metrics = []
    · simp [hm]
    · simpa [hm] using h.filter _
  · rw [if_neg hc]
    exact h

/-! ## Claim theorems -/

/-- C3: for every rational percent the classifier returns exactly the
tier table's letter: under the primary scheme (`"rebound_total"`)
≥85→A, 75..<85→B, 65..<75→C, 55..<65→D, <55→F; under the alternate
scheme (`"alt"`) ≥82→A, 72..<82→B, 62..<72→C, 52..<62→D, <52→F.  The
regions partition the line, so the classification is completely
determined. -/
theorem grade_tiers (p : ℚ) :
    (85 ≤ p → grade_by_percent p "rebound_total" = "A") ∧
    (75 ≤ p → p < 85 → grade_by_percent p "rebound_total" = "B") ∧
    (65 ≤ p → p < 75 → grade_by_percent p "rebound_total" = "C") ∧
    (55 ≤ p → p < 65 → grade_by_percent p "rebound_total" = "D") ∧
    (p < 55 → grade_by_percent p "rebound_total" = "F") ∧
    (82 ≤ p → grade_by_percent p "alt" = "A") ∧
    (72 ≤ p → p < 82 → grade_by_percent p "alt" = "B") ∧
    (62 ≤ p → p < 72 → grade_by_percent p "alt" = "C") ∧
    (52 ≤ p → p < 62 → grade_by_percent p "alt" = "D") ∧
    (p < 52 → grade_by_percent p "alt" = "F") := by
  refine ⟨?_, ?_, ?_, ?_, ?_, ?_, ?_, ?_, ?_, ?_⟩ <;>
    · intros
      simp only [grade_by_percent]
      split_ifs <;> first | rfl | (exfalso; first | linarith | simp_all)

/-- C3 witness: the boundary cases named by the claim, `percent = 85 → A`
and `percent = 84.9 → B` under the primary scheme. -/
theorem grade_tiers_witness :
    ((85 : ℚ) ≤ 85 ∧ (75 : ℚ) ≤ 849 / 10 ∧ (849 / 10 : ℚ) < 85) ∧
    grade_by_percent 85 "rebound_total" = "A" ∧
    grade_by_percent (849 / 10) "rebound_total" = "B" :=
  ⟨⟨le_refl _, by norm_num, by norm_num⟩,
   (grade_tiers 85).1 (le_refl _),
   (grade_tiers (849 / 10)).2.1 (by norm_num) (by norm_num)⟩

/-- C8: the classifier is total (it lands in {A,B,C,D,F} for every
rational percent, inside or outside [0,100], and for every scheme
string) and, for a fixed scheme, monotone in percent under the order
F < D < C < B < A. -/
theorem grade_total_monotone (scheme : String) (p₁ p₂ : ℚ) (h : p₁ ≤ p₂) :
    grade_by_percent p₁ scheme ∈ (["A", "B", "C", "D", "F"] : List String) ∧
    gradeRank (grade_by_percent p₁ scheme) ≤ gradeRank (grade_by_percent p₂ scheme) := by
  constructor
  · simp only [grade_by_percent]
    split_ifs <;> simp
  · simp only [grade_by_percent]
    split_ifs <;> first | decide | (exfalso; linarith)

/-- C8 witness: monotonicity at the concrete pair (-10, 190) under the
alternate scheme, a pair lying outside [0,100]. -/
theorem grade_total_monotone_witness :
    (-10 : ℚ) ≤ 190 ∧
    (grade_by_percent (-10) "alt" ∈ (["A", "B", "C", "D", "F"] : List String) ∧
     gradeRank (grade_by_percent (-10) "alt") ≤ gradeRank (grade_by_percent 190 "alt")) :=
  ⟨by norm_num, grade_total_monotone "alt" (-10) 190 (by norm_num)⟩

/-- C2: for every metric submission, a strictly positive denominator
yields `percent = round(made/attempt*100, 1)` and
`grade = grade_by_percent percent scheme`, while a zero denominator
stores `NULL` for both percent and grade. -/
theorem metric_percent_grade (made attempt : ℕ) (schemeChoice : String) :
    (0 < attempt →
      (saveMetric made attempt schemeChoice).percent =
        some (round1 ((made : ℚ) / (attempt : ℚ) * 100)) ∧
      (saveMetric made attempt schemeChoice).grade =
        some (grade_by_percent (round1 ((made : ℚ) / (attempt : ℚ) * 100))
          (metricScheme schemeChoice))) ∧
    (attempt = 0 →
      (saveMetric made attempt schemeChoice).percent = none ∧
      (saveMetric made attempt schemeChoice).grade = none) := by
  constructor
  · intro h
    simp [saveMetric, h]
  · intro h
    subst h
    simp [saveMetric]

/-- C2 witness: 34/40 gives percent 85.0 and grade A under the primary
scheme; any submission with denominator 0 stores percent and grade as
`NULL`. -/
theorem metric_percent_grade_witness :
    (0 < 40 ∧
      (saveMetric 34 40 "rebound_total (85/75/65/55)").percent =
        some (round1 (((34 : ℕ) : ℚ) / ((40 : ℕ) : ℚ) * 100)) ∧
      (saveMetric 34 40 "rebound_total (85/75/65/55)").grade =
        some (grade_by_percent (round1 (((34 : ℕ) : ℚ) / ((40 : ℕ) : ℚ) * 100))
          (metricScheme "rebound_total (85/75/65/55)"))) ∧
    (saveMetric 34 40 "rebound_total (85/75/65/55)").percent = some 85 ∧
    (saveMetric 34 40 "rebound_total (85/75/65/55)").grade = some "A" ∧
    (saveMetric 7 0 "alt (82/72/62/52)").percent = none ∧
    (saveMetric 7 0 "alt (82/72/62/52)").grade = none := by
  have h := (metric_percent_grade 34 40 "rebound_total (85/75/65/55)").1 (by norm_num)
  have h0 := (metric_percent_grade 7 0 "alt (82/72/62/52)").2 rfl
  have hscheme : metricScheme "rebound_total (85/75/65/55)" = "rebound_total" := by decide
  refine ⟨⟨by norm_num, h⟩, ?_, ?_, h0.1, h0.2⟩
  · rw [h.1, round1_85]
  · rw [h.2, round1_85, hscheme]
    decide

/-- C10: a submission with denominator 0 stores `NULL` not only for
percent and grade but also for the raw `made` and `attempt` counts,
whatever numerator was entered. -/
theorem metric_zero_attempt_drops_counts (made : ℕ) (schemeChoice : String) :
    saveMetric made 0 schemeChoice =
      { made := none, attempt := none, percent := none, grade := none } := by
  simp [saveMetric]

/-- C7: `ai_feedback` never raises: with an empty credential it returns
`None` without invoking the transport, and a transport that raises is
caught and converted to `None`. -/
theorem ai_feedback_degrades (openaiKey : String) (transport : Unit → TransportResult) :
    ai_feedback "" transport = (none, false) ∧
    (ai_feedback openaiKey (fun _ => TransportResult.exn)).1 = none := by
  constructor
  · rfl
  · by_cases h : openaiKey = "" <;> simp [ai_feedback, h]

/-- C6 counterexample: a response exposing its text only through the
object-graph shape (`output[0].content[0].text`, no `output_text`
attribute) yields `None`, not the text — the claimed second and third
extraction paths do not exist at app.py lines 210-211. -/
theorem ai_extract_graph_only_counterexample :
    demoGraphResponse.output_text = none ∧
    demoGraphResponse.output =
      [{ content := [{ chunkType := "output_text", text := "good work" }] }] ∧
    extractText demoGraphResponse = none := by
  refine ⟨rfl, rfl, ?_⟩
  decide

/-- C6 (amended): the extraction reads only the direct `output_text`
attribute — responses with equal `output_text` extract identically
regardless of their content graph, a missing attribute yields `None`,
and a present attribute yields its trimmed text when non-empty. -/
theorem ai_extract_output_text_only (r₁ r₂ : AIResponse)
    (h : r₁.output_text = r₂.output_text) :
    extractText r₁ = extractText r₂ ∧
    (r₁.output_text = none → extractText r₁ = none) ∧
    (∀ s, r₁.output_text = some s → pyStrip s ≠ "" → extractText r₁ = some (pyStrip s)) := by
  refine ⟨?_, ?_, ?_⟩
  · simp only [extractText, h]
  · intro hn
    simp only [extractText, hn, Option.getD_none]
    decide
  · intro s hs hne
    simp [extractText, hs, hne]

/-- C6 witness: two responses sharing `output_text` but with different
content graphs extract to the same trimmed text. -/
theorem ai_extract_output_text_only_witness :
    demoTextResponse.output_text = demoBothResponse.output_text ∧
    (extractText demoTextResponse = extractText demoBothResponse ∧
     (demoTextResponse.output_text = none → extractText demoTextResponse = none) ∧
     (∀ s, demoTextResponse.output_text = some s → pyStrip s ≠ "" →
       extractText demoTextResponse = some (pyStrip s))) :=
  ⟨rfl, ai_extract_output_text_only demoTextResponse demoBothResponse rfl⟩

/-- C9: deleting a player removes exactly the matching rows of the
`players` table and leaves the five dependent tables untouched, so
attendance rows referencing the deleted player persist as dangling
references. -/
theorem delete_player_frame (db : Database) (pid : ℕ) :
    (deletePlayer db pid).sessions = db.sessions ∧
    (deletePlayer db pid).attendance = db.attendance ∧
    (deletePlayer db pid).video_notes = db.video_notes ∧
    (deletePlayer db pid).metrics = db.metrics ∧
    (deletePlayer db pid).parent_msgs = db.parent_msgs ∧
    (∀ r : PlayerRow, r ∈ (deletePlayer db pid).players ↔ r ∈ db.players ∧ r.id ≠ pid) ∧
    (∀ a ∈ db.attendance, a ∈ (deletePlayer db pid).attendance) := by
  refine ⟨rfl, rfl, rfl, rfl, rfl, ?_, ?_⟩
  · intro r
    simp [deletePlayer, List.mem_filter, bne_iff_ne]
  · intro a ha
    exact ha

/-- C9 witness: in `demoDb`, deleting player 1 removes the player row
while its attendance row survives as a dangling reference. -/
theorem delete_player_frame_witness :
    demoAttRow ∈ demoDb.attendance ∧
    ((PlayerRow.mk 1 "A" "" "t0") ∈ (deletePlayer demoDb 1).players ↔
      (PlayerRow.mk 1 "A" "" "t0") ∈ demoDb.players ∧ (PlayerRow.mk 1 "A" "" "t0").id ≠ 1) ∧
    demoAttRow ∈ (deletePlayer demoDb 1).attendance :=
  ⟨by decide,
   (delete_player_frame demoDb 1).2.2.2.2.2.1 (PlayerRow.mk 1 "A" "" "t0"),
   (delete_player_frame demoDb 1).2.2.2.2.2.2 demoAttRow (by decide)⟩

/-- C1: upserting twice for a `(session_id, player_id)` key not yet in
the table leaves exactly one attendance row for that key, carrying the
second submission's `present`, `intensity`, `mood` and `memo`, while
the row's `id` and `created_at` are those of the first insertion. -/
theorem attendance_upsert_twice (t : AttendanceTable)
    (sid pid pr₁ in₁ md₁ pr₂ in₂ md₂ : ℕ) (m₁ m₂ ts₁ ts₂ : String)
    (hfresh : ∀ r ∈ t.rows, attKey sid pid r = false) :
    ((upsertAttendance (upsertAttendance t sid pid pr₁ in₁ md₁ m₁ ts₁)
        sid pid pr₂ in₂ md₂ m₂ ts₂).rows.filter (attKey sid pid)) =
      [{ id := t.nextId, session_id := sid, player_id := pid, present := pr₂,
         intensity := in₂, mood := md₂, memo := m₂, created_at := ts₁ }] := by
  have h1 : t.rows.any (attKey sid pid) = false := by
    rw [List.any_eq_false]
    intro r hr
    simp [hfresh r hr]
  have step1 : upsertAttendance t sid pid pr₁ in₁ md₁ m₁ ts₁ =
      AttendanceTable.mk
        (t.rows ++ [AttendanceRow.mk t.nextId sid pid pr₁ in₁ md₁ m₁ ts₁])
        (t.nextId + 1) := by
    simp [upsertAttendance, h1]
  have h2 : ((t.rows ++ [AttendanceRow.mk t.nextId sid pid pr₁ in₁ md₁ m₁ ts₁]).any
      (attKey sid pid)) = true := by
    simp [attKey]
  rw [step1]
  simp only [upsertAttendance, h2, if_true]
  rw [List.map_append, List.filter_append,
    filter_attKey_upd_eq_nil sid pid pr₂ in₂ md₂ m₂ t.rows hfresh, List.nil_append]
  simp [attKey]

/-- C1 witness: starting from an empty table, two submissions for key
(5, 2) leave the single row with the second values and the first
insertion's id and timestamp. -/
theorem attendance_upsert_twice_witness :
    (∀ r ∈ (AttendanceTable.mk [] 1).rows, attKey 5 2 r = false) ∧
    ((upsertAttendance (upsertAttendance (AttendanceTable.mk [] 1) 5 2 1 7 8 "m1" "t1")
        5 2 1 9 8 "m2" "t2").rows.filter (attKey 5 2)) =
      [{ id := 1, session_id := 5, player_id := 2, present := 1,
         intensity := 9, mood := 8, memo := "m2", created_at := "t1" }] :=
  ⟨fun r hr => absurd hr (List.not_mem_nil r),
   attendance_upsert_twice (AttendanceTable.mk [] 1) 5 2 1 7 8 1 9 8 "m1" "m2" "t1" "t2"
     (fun r hr => absurd hr (List.not_mem_nil r))⟩

/-- C4 counterexample: `str.contains` defaults to regex search, so the
filter "J. Kim" (the metacharacter `.` matches any character) keeps a
note whose players field is "JX Kim" in the payload, although "J. Kim"
is not a literal substring of "JX Kim" — the claim that only notes
containing the filter as a substring pass is false. -/
theorem report_subject_filter_counterexample :
    pyStrip "J. Kim" ≠ "" ∧
    (buildPayload "J. Kim" [] [NoteRow.mk 4 (some "JX Kim") "n"] []).video_notes =
      [NoteRow.mk 4 (some "JX Kim") "n"] ∧
    strContains ((NoteRow.mk 4 (some "JX Kim") "n").players.getD "")
      (pyStrip "J. Kim") = false := by
  refine ⟨?_, ?_, ?_⟩ <;> decide

/-- C4 (amended): with a non-empty (stripped) subject filter, every
attendance row of the payload has the filter as its exact player name
and every metric row has it as its exact player, but notes are kept by
regex search (`str.contains` with its default `regex=True`) of the
filter against the players field — which coincides with literal
substring containment exactly when the filter is free of regex
metacharacters; with an empty filter all three streams pass through
subject only to the tail cap. -/
theorem report_subject_filter (rPlayer : String) (att : List AttReportRow)
    (notes : List NoteRow) (metrics : List MetricReportRow) :
    (pyStrip rPlayer ≠ "" →
      (∀ a ∈ (buildPayload rPlayer att notes metrics).attendance,
        a.name = pyStrip rPlayer) ∧
      (∀ n ∈ (buildPayload rPlayer att notes metrics).video_notes,
        strContainsRegex (n.players.getD "") (pyStrip rPlayer) = true) ∧
      (∀ m ∈ (buildPayload rPlayer att notes metrics).metrics,
        m.player = pyStrip rPlayer)) ∧
    (pyStrip rPlayer = "" →
      (buildPayload rPlayer att notes metrics).attendance = tailCap 50 att ∧
      (buildPayload rPlayer att notes metrics).video_notes = tailCap 50 notes ∧
      (buildPayload rPlayer att notes metrics).metrics = tailCap 50 metrics) ∧
    (∀ hay pat : String, (∀ c ∈ pat.data, c ≠ '.') →
      strContainsRegex hay pat = strContains hay pat) := by
  refine ⟨?_, ?_, ?_⟩
  · intro hne
    have hfs1 : (filterStreams rPlayer att notes metrics).1 =
        (if att = [] then att else att.filter (fun r => r.name == pyStrip rPlayer)) := by
      simp [filterStreams, hne]
    have hfs2 : (filterStreams rPlayer att notes metrics).2.1 =
        (if notes = [] then notes
         else notes.filter
           (fun r => strContainsRegex (r.players.getD "") (pyStrip rPlayer))) := by
      simp [filterStreams, hne]
    have hfs3 : (filterStreams rPlayer att notes metrics).2.2 =
        (if metrics = [] then metrics
         else metrics.filter (fun r => r.player == pyStrip rPlayer)) := by
      simp [filterStreams, hne]
    refine ⟨?_, ?_, ?_⟩
    · intro a ha
      simp only [buildPayload, hfs1] at ha
      have hp := mem_capped_filter ha
      exact eq_of_beq hp
    · intro n hn
      simp only [buildPayload, hfs2] at hn
      have hp := mem_capped_filter hn
      exact hp
    · intro m hm
      simp only [buildPayload, hfs3] at hm
      have hp := mem_capped_filter hm
      exact eq_of_beq hp
  · intro he
    have hfs : filterStreams rPlayer att notes metrics = (att, notes, metrics) := by
      simp [filterStreams, he]
    simp only [buildPayload, hfs]
    exact ⟨ite_nil_tailCap 50 att, ite_nil_tailCap 50 notes, ite_nil_tailCap 50 metrics⟩
  · intro hay pat h
    simp only [strContainsRegex, strContains]
    exact reHasMatch_eq_charsHasSub pat.data h hay.data

/-- C4 amended witness: filtering the demo streams by subject "A" keeps
only rows matching "A", the empty filter passes all streams through to
the tail cap, and for the metacharacter-free pattern "Kim" the regex
filter agrees with literal substring containment. -/
theorem report_subject_filter_witness :
    (pyStrip "A" ≠ "" ∧
      (∀ a ∈ (buildPayload "A" demoAtt demoNotes demoMetrics).attendance,
        a.name = pyStrip "A") ∧
      (∀ n ∈ (buildPayload "A" demoAtt demoNotes demoMetrics).video_notes,
        strContainsRegex (n.players.getD "") (pyStrip "A") = true) ∧
      (∀ m ∈ (buildPayload "A" demoAtt demoNotes demoMetrics).metrics,
        m.player = pyStrip "A")) ∧
    ((buildPayload "" demoAtt demoNotes demoMetrics).attendance = tailCap 50 demoAtt ∧
     (buildPayload "" demoAtt demoNotes demoMetrics).video_notes = tailCap 50 demoNotes ∧
     (buildPayload "" demoAtt demoNotes demoMetrics).metrics = tailCap 50 demoMetrics) ∧
    ((∀ c ∈ "Kim".data, c ≠ '.') ∧
     strContainsRegex "JX Kim" "Kim" = strContains "JX Kim" "Kim") :=
  ⟨⟨by decide, (report_subject_filter "A" demoAtt demoNotes demoMetrics).1 (by decide)⟩,
   (report_subject_filter "" demoAtt demoNotes demoMetrics).2.1 (by decide),
   ⟨by decide,
    (report_subject_filter "" demoAtt demoNotes demoMetrics).2.2 "JX Kim" "Kim" (by decide)⟩⟩

/-- C5 counterexample: with no subject filter and 51 in-window notes
delivered in descending date order (as `ORDER BY note_date DESC`
produces), the payload keeps 50 entries but drops the single most
recent note (date 51), keeping the 50 oldest — the claim that the kept
entries are the 50 most recent is false. -/
theorem report_tail_cap_counterexample :
    demoNotes51.Pairwise (fun a b => b.note_date ≤ a.note_date) ∧
    (demoNotes51.filter (fun n => n.note_date == 51)).length = 1 ∧
    (buildPayload "" [] demoNotes51 []).video_notes.length = 50 ∧
    ((buildPayload "" [] demoNotes51 []).video_notes.all fun n => n.note_date != 51) = true := by
  refine ⟨?_, ?_, ?_, ?_⟩ <;> decide

/-- C5 (amended): each payload stream holds at most 50 entries and is
the `tail(50)` of the corresponding stream after the subject filter has
been applied (cap after filtering); since notes and metrics arrive
sorted descending by date, the retained 50 entries are the oldest of
the filtered window — every dropped entry's date is at least every kept
entry's date. -/
theorem report_tail_cap_amended (rPlayer : String) (att : List AttReportRow)
    (notes : List NoteRow) (metrics : List MetricReportRow)
    (hnotes : notes.Pairwise (fun a b => b.note_date ≤ a.note_date))
    (hmetrics : metrics.Pairwise (fun a b => b.metric_date ≤ a.metric_date)) :
    (buildPayload rPlayer att notes metrics).attendance.length ≤ 50 ∧
    (buildPayload rPlayer att notes metrics).video_notes.length ≤ 50 ∧
    (buildPayload rPlayer att notes metrics).metrics.length ≤ 50 ∧
    (buildPayload rPlayer att notes metrics).attendance =
      tailCap 50 (filterStreams rPlayer att notes metrics).1 ∧
    (buildPayload rPlayer att notes metrics).video_notes =
      tailCap 50 (filterStreams rPlayer att notes metrics).2.1 ∧
    (buildPayload rPlayer att notes metrics).metrics =
      tailCap 50 (filterStreams rPlayer att notes metrics).2.2 ∧
    (∀ x ∈ (filterStreams rPlayer att notes metrics).2.1.take
        ((filterStreams rPlayer att notes metrics).2.1.length - 50),
      ∀ y ∈ (buildPayload rPlayer att notes metrics).video_notes,
        y.note_date ≤ x.note_date) ∧
    (∀ x ∈ (filterStreams rPlayer att notes metrics).2.2.take
        ((filterStreams rPlayer att notes metrics).2.2.length - 50),
      ∀ y ∈ (buildPayload rPlayer att notes metrics).metrics,
        y.metric_date ≤ x.metric_date) := by
  have hb1 : (buildPayload rPlayer att notes metrics).attendance =
      tailCap 50 (filterStreams rPlayer att notes metrics).1 := by
    simp only [buildPayload]
    exact ite_nil_tailCap 50 _
  have hb2 : (buildPayload rPlayer att notes metrics).video_notes =
      tailCap 50 (filterStreams rPlayer att notes metrics).2.1 := by
    simp only [buildPayload]
    exact ite_nil_tailCap 50 _
  have hb3 : (buildPayload rPlayer att notes metrics).metrics =
      tailCap 50 (filterStreams rPlayer att notes metrics).2.2 := by
    simp only [buildPayload]
    exact ite_nil_tailCap 50 _
  have hp2 := pairwise_notes_stream hnotes rPlayer att metrics
  have hp3 := pairwise_metrics_stream hmetrics rPlayer att notes
  refine ⟨?_, ?_, ?_, hb1, hb2, hb3, ?_, ?_⟩
  · rw [hb1]
    exact tailCap_length_le 50 _
  · rw [hb2]
    exact tailCap_length_le 50 _
  · rw [hb3]
    exact tailCap_length_le 50 _
  · intro x hx y hy
    rw [hb2] at hy
    simp only [tailCap] at hy
    exact take_drop_rel hp2 _ x hx y hy
  · intro x hx y hy
    rw [hb3] at hy
    simp only [tailCap] at hy
    exact take_drop_rel hp3 _ x hx y hy

/-- C5 amended witness: the 51 descending demo notes yield a 50-entry
payload stream equal to the tail of the filtered stream. -/
theorem report_tail_cap_amended_witness :
    demoNotes51.Pairwise (fun a b => b.note_date ≤ a.note_date) ∧
    ([] : List MetricReportRow).Pairwise (fun a b => b.metric_date ≤ a.metric_date) ∧
    (buildPayload "" [] demoNotes51 []).video_notes.length ≤ 50 ∧
    (buildPayload "" [] demoNotes51 []).video_notes =
      tailCap 50 (filterStreams "" [] demoNotes51 []).2.1 :=
  ⟨by decide, List.Pairwise.nil,
   (report_tail_cap_amended "" [] demoNotes51 [] (by decide) List.Pairwise.nil).2.1,
   (report_tail_cap_amended "" [] demoNotes51 [] (by decide) List.Pairwise.nil).2.2.2.2.1⟩
